import Mathlib

/-!
Verification of the core logic of jira-implementation-generator (jig):
normalization of an untyped Jira field map into a typed Ticket
(pkg/jira/client.go, parseTicket), projection of a Ticket into the flat
rendering context (pkg/prompt, createTemplateData), the flat template
renderer (LoadAndRenderTemplate), and the two-phase POML pipeline
(LoadAndRenderPOMLTemplate, convertPOMLToPrompt).

All collections that Go represents as slices are modelled as Lean lists
(ordered); Go maps `map[string]interface{}` produced by encoding/json are
modelled as association lists with unique keys, looked up with
`List.lookup`.  Machine-level concerns (HTTP transport, file reads) are out
of scope: the functions here receive the template text and the decoded
JSON field map directly, exactly as the Go functions do after their I/O
prologue.
-/

namespace JIG

/-- A JSON-shaped value as decoded by Go's encoding/json into
`interface{}`: null, bool, number, string, array, or object.  Numbers are
never read by `parseTicket` (every extraction asserts `string`, a map, or
an array), so their representation is irrelevant; we carry them as `Int`. -/
inductive Json where
  | null : Json
  | bool (b : Bool) : Json
  | num (n : Int) : Json
  | str (s : String) : Json
  | arr (xs : List Json) : Json
  | obj (fields : List (String × Json)) : Json

/-- Go `jira.Status`: `{ID, Name string}`. -/
structure Status where
  ID : String
  Name : String
deriving DecidableEq

/-- Go `jira.IssueType`: `{ID, Name string}`. -/
structure IssueType where
  ID : String
  Name : String
deriving DecidableEq

/-- Go `jira.Priority`: `{ID, Name string}`. -/
structure Priority where
  ID : String
  Name : String
deriving DecidableEq

/-- Go `jira.User`: `{AccountID, DisplayName, EmailAddress string}`. -/
structure User where
  AccountID : String
  DisplayName : String
  EmailAddress : String
deriving DecidableEq

/-- Go `jira.Project`: `{ID, Key, Name string}`. -/
structure Project where
  ID : String
  Key : String
  Name : String
deriving DecidableEq

/-- A parsed wall-clock instant, the result of Go's
`time.Parse("2006-01-02T15:04:05.000-0700", s)` when it succeeds.
The Ticket stores `Option GoTime`; `none` models Go's zero `time.Time`
(the value the field keeps when parsing fails or the key is absent). -/
structure GoTime where
  year : Nat
  month : Nat
  day : Nat
  hour : Nat
  minute : Nat
  second : Nat
  millis : Nat
  zoneNeg : Bool
  zoneHH : Nat
  zoneMM : Nat
deriving DecidableEq

/-- Go `jira.Component`: `{ID, Name, Description string; Lead *User; Self string}`. -/
structure Component where
  ID : String
  Name : String
  Description : String
  Lead : Option User
  Self : String
deriving DecidableEq

/-- Go `jira.Ticket` (pkg/jira/types.go).  `Assignee *User` becomes
`Option User`; the two `time.Time` fields become `Option GoTime` with
`none` as the zero timestamp. -/
structure Ticket where
  ID : String
  Key : String
  Summary : String
  Description : String
  Status : Status
  IssueType : IssueType
  Priority : Priority
  Assignee : Option User
  Reporter : User
  Created : Option GoTime
  Updated : Option GoTime
  Labels : List String
  Components : List Component
  Project : Project
deriving DecidableEq

/-- Go `jira.JiraResponse`: outer envelope `{ID, Key string; Fields map[string]interface{}}`. -/
structure JiraResponse where
  ID : String
  Key : String
  Fields : List (String × Json)

/-- Go `getStringFromMap` (client.go): `m[key].(string)` with `""` on a
missing key or a non-string value. -/
def getStringFromMap (m : List (String × Json)) (key : String) : String :=
  match m.lookup key with
  | some (Json.str s) => s
  | _ => ""

/-- Numeric value of a decimal digit character. -/
def digitVal (c : Char) : Nat := c.toNat - 48

/-- Gregorian leap year, as used by Go's `time` package. -/
def isLeapYear (y : Nat) : Bool := (y % 4 = 0 && y % 100 ≠ 0) || y % 400 = 0

/-- Days in a month, as validated by Go's `time.Parse`. -/
def daysInMonth (y m : Nat) : Nat :=
  if m = 1 || m = 3 || m = 5 || m = 7 || m = 8 || m = 10 || m = 12 then 31
  else if m = 2 then (if isLeapYear y then 29 else 28)
  else 30

/-- Go `time.Parse("2006-01-02T15:04:05.000-0700", s)`: the single fixed
layout used by `parseTicket`.  The input must be exactly 28 characters in
the fixed shape, with in-range month, day (month- and leap-aware), hour,
minute and second; anything else fails (`none`). -/
def timeParse (s : String) : Option GoTime :=
  match s.data with
  | [y1, y2, y3, y4, q1, m1, m2, q2, d1, d2, tc,
     h1, h2, c1, n1, n2, c2, s1, s2, dot, f1, f2, f3, zs, o1, o2, o3, o4] =>
    if q1 = '-' && q2 = '-' && tc = 'T' && c1 = ':' && c2 = ':' && dot = '.'
        && (zs = '+' || zs = '-')
        && ([y1, y2, y3, y4, m1, m2, d1, d2, h1, h2, n1, n2,
             s1, s2, f1, f2, f3, o1, o2, o3, o4].all Char.isDigit) then
      let year := digitVal y1 * 1000 + digitVal y2 * 100 + digitVal y3 * 10 + digitVal y4
      let month := digitVal m1 * 10 + digitVal m2
      let day := digitVal d1 * 10 + digitVal d2
      let hour := digitVal h1 * 10 + digitVal h2
      let minute := digitVal n1 * 10 + digitVal n2
      let second := digitVal s1 * 10 + digitVal s2
      if 1 ≤ month && month ≤ 12 && 1 ≤ day && day ≤ daysInMonth year month
          && hour ≤ 23 && minute ≤ 59 && second ≤ 59 then
        some { year := year, month := month, day := day, hour := hour,
               minute := minute, second := second,
               millis := digitVal f1 * 100 + digitVal f2 * 10 + digitVal f3,
               zoneNeg := zs = '-',
               zoneHH := digitVal o1 * 10 + digitVal o2,
               zoneMM := digitVal o3 * 10 + digitVal o4 }
      else none
    else none
  | _ => none

/-- One element of the raw `components` array (client.go lines 196-216):
a non-object element is skipped (`none`); an object yields a Component,
with the lead present only when `lead` is itself an object. -/
def parseComponent (j : Json) : Option Component :=
  match j with
  | Json.obj m =>
    some { ID := getStringFromMap m "id",
           Name := getStringFromMap m "name",
           Description := getStringFromMap m "description",
           Self := getStringFromMap m "self",
           Lead :=
             match m.lookup "lead" with
             | some (Json.obj lm) =>
               some { AccountID := getStringFromMap lm "accountId",
                      DisplayName := getStringFromMap lm "displayName",
                      EmailAddress := getStringFromMap lm "emailAddress" }
             | _ => none }
  | _ => none

/-- The ticket constructed by `parseTicket` (client.go lines 112-229): each
known field is extracted by a type assertion on the raw map; an absent key
or a wrong-shaped value leaves the field at its zero value.  Labels and
components iterate the raw array and silently skip non-conforming
elements. -/
def parseTicketCore (resp : JiraResponse) : Ticket :=
  { ID := resp.ID,
    Key := resp.Key,
    Summary :=
      match resp.Fields.lookup "summary" with
      | some (Json.str s) => s
      | _ => "",
    Description :=
      match resp.Fields.lookup "description" with
      | some (Json.str s) => s
      | _ => "",
    Status :=
      match resp.Fields.lookup "status" with
      | some (Json.obj m) => { ID := getStringFromMap m "id", Name := getStringFromMap m "name" }
      | _ => { ID := "", Name := "" },
    IssueType :=
      match resp.Fields.lookup "issuetype" with
      | some (Json.obj m) => { ID := getStringFromMap m "id", Name := getStringFromMap m "name" }
      | _ => { ID := "", Name := "" },
    Priority :=
      match resp.Fields.lookup "priority" with
      | some (Json.obj m) => { ID := getStringFromMap m "id", Name := getStringFromMap m "name" }
      | _ => { ID := "", Name := "" },
    Assignee :=
      match resp.Fields.lookup "assignee" with
      | some (Json.obj m) =>
        some { AccountID := getStringFromMap m "accountId",
               DisplayName := getStringFromMap m "displayName",
               EmailAddress := getStringFromMap m "emailAddress" }
      | _ => none,
    Reporter :=
      match resp.Fields.lookup "reporter" with
      | some (Json.obj m) =>
        { AccountID := getStringFromMap m "accountId",
          DisplayName := getStringFromMap m "displayName",
          EmailAddress := getStringFromMap m "emailAddress" }
      | _ => { AccountID := "", DisplayName := "", EmailAddress := "" },
    Created :=
      match resp.Fields.lookup "created" with
      | some (Json.str s) => timeParse s
      | _ => none,
    Updated :=
      match resp.Fields.lookup "updated" with
      | some (Json.str s) => timeParse s
      | _ => none,
    Labels :=
      match resp.Fields.lookup "labels" with
      | some (Json.arr xs) =>
        xs.filterMap (fun j => match j with | Json.str s => some s | _ => none)
      | _ => [],
    Components :=
      match resp.Fields.lookup "components" with
      | some (Json.arr xs) => xs.filterMap parseComponent
      | _ => [],
    Project :=
      match resp.Fields.lookup "project" with
      | some (Json.obj m) =>
        { ID := getStringFromMap m "id", Key := getStringFromMap m "key",
          Name := getStringFromMap m "name" }
      | _ => { ID := "", Key := "", Name := "" } }

/-- Go `(*Client).parseTicket` has signature `(*Ticket, error)`, but its
only return statement is `return ticket, nil`: it succeeds on every input. -/
def parseTicket (resp : JiraResponse) : Except String Ticket :=
  Except.ok (parseTicketCore resp)

/-- Go `prompt.TemplateData` (template.go): the nine string fields exposed
to both rendering dialects. -/
structure TemplateData where
  Summary : String
  Description : String
  Status : String
  IssueType : String
  Priority : String
  Components : String
  Labels : String
  Assignee : String
  Reporter : String
deriving DecidableEq

/-- One entry of the projected Components list (template.go lines 73-79):
the component name, decorated with the lead's display name when present. -/
def componentEntry (c : Component) : String :=
  match c.Lead with
  | some l => c.Name ++ " (Lead: " ++ l.DisplayName ++ ")"
  | none => c.Name

/-- Go `prompt.createTemplateData` (template.go lines 53-89).  The Go code
builds the struct with zero-valued `Assignee`/`Components`/`Labels` and
then assigns them conditionally; here each field is the corresponding
conditional expression, which is the same value. -/
def createTemplateData (t : Ticket) : TemplateData :=
  { Summary := t.Summary,
    Description := t.Description,
    Status := t.Status.Name,
    IssueType := t.IssueType.Name,
    Priority := t.Priority.Name,
    Reporter := t.Reporter.DisplayName,
    Assignee :=
      match t.Assignee with
      | some u => u.DisplayName
      | none => "Unassigned",
    Components :=
      if t.Components.isEmpty then ""
      else String.intercalate ", " (t.Components.map componentEntry),
    Labels :=
      if t.Labels.isEmpty then ""
      else String.intercalate ", " t.Labels }

/-! ### The Go text/template engine, restricted to the fragment both
renderers use

Both dialects hand the template text to Go's `text/template`: `Parse`
followed by `Execute` with a `TemplateData` value.  We model the engine on
the fragment of its language that field substitution uses: literal text
interleaved with field actions (an action delimited by a double opening
brace and a double closing brace whose body is a dot followed by an
identifier).  `Parse` rejects malformed actions (an unclosed action, or a
body that is not a dot-identifier); `Execute` resolves each field by
reflection on the struct, which fails for any name that is not one of the
nine `TemplateData` fields ("cannot evaluate field X"). -/

/-- The opening-brace character U+007B used by the action delimiters. -/
def openBrace : Char := Char.ofNat 123

/-- The closing-brace character U+007D used by the action delimiters. -/
def closeBrace : Char := Char.ofNat 125

/-- One parsed template node: literal text, or a field action. -/
inductive TmplNode where
  | text (s : String) : TmplNode
  | field (name : String) : TmplNode
deriving DecidableEq

/-- Split at the first double opening brace: the literal prefix, and what
follows the delimiter when one occurs. -/
def splitOnOpen : List Char → List Char × Option (List Char)
  | [] => ([], none)
  | [c] => ([c], none)
  | c :: c2 :: rest =>
    if c = openBrace && c2 = openBrace then ([], some rest)
    else
      let p := splitOnOpen (c2 :: rest)
      (c :: p.1, p.2)

/-- Split at the first double closing brace: the action body and the
remainder, or `none` when the action is never closed. -/
def splitOnClose : List Char → Option (List Char × List Char)
  | [] => none
  | [_] => none
  | c :: c2 :: rest =>
    if c = closeBrace && c2 = closeBrace then some ([], rest)
    else
      match splitOnClose (c2 :: rest) with
      | some p => some (c :: p.1, p.2)
      | none => none

/-- Characters allowed in a field identifier. -/
def isIdentChar (c : Char) : Bool := c.isAlpha || c.isDigit || c = '_'

/-- An action body must be a dot followed by a nonempty identifier. -/
def parseAction (body : List Char) : Option String :=
  match body with
  | '.' :: ident =>
    if ident ≠ [] && ident.all isIdentChar then some (String.mk ident) else none
  | _ => none

/-- The literal prefix as a node list (empty text produces no node). -/
def textNodes (cs : List Char) : List TmplNode :=
  if cs = [] then [] else [TmplNode.text (String.mk cs)]

/-- Fueled scanner behind `parseTemplate`; each step consumes at least one
character of input, so the caller's fuel of `length + 1` never runs out. -/
def parseTemplateAux : Nat → List Char → Except String (List TmplNode)
  | 0, _ => Except.error "internal: out of fuel"
  | _ + 1, [] => Except.ok []
  | fuel + 1, cs =>
    let p := splitOnOpen cs
    match p.2 with
    | none => Except.ok (textNodes p.1)
    | some afterOpen =>
      match splitOnClose afterOpen with
      | none => Except.error "unclosed action"
      | some (body, rest) =>
        match parseAction body with
        | none => Except.error ("bad character in action: " ++ String.mk body)
        | some name =>
          match parseTemplateAux fuel rest with
          | Except.error e => Except.error e
          | Except.ok tail => Except.ok (textNodes p.1 ++ TmplNode.field name :: tail)

/-- `template.Parse` on the modelled fragment. -/
def parseTemplate (s : String) : Except String (List TmplNode) :=
  parseTemplateAux (s.data.length + 1) s.data

/-- Field resolution on `TemplateData`, as Go reflection performs it during
`Execute`: exactly the struct's nine fields resolve; any other name is
unknown. -/
def lookupTemplateField (d : TemplateData) (name : String) : Option String :=
  if name = "Summary" then some d.Summary
  else if name = "Description" then some d.Description
  else if name = "Status" then some d.Status
  else if name = "IssueType" then some d.IssueType
  else if name = "Priority" then some d.Priority
  else if name = "Components" then some d.Components
  else if name = "Labels" then some d.Labels
  else if name = "Assignee" then some d.Assignee
  else if name = "Reporter" then some d.Reporter
  else none

/-- Membership in the known context-field set of §4.2. -/
def isKnownTemplateField (name : String) : Bool :=
  name = "Summary" || name = "Description" || name = "Status"
    || name = "IssueType" || name = "Priority" || name = "Components"
    || name = "Labels" || name = "Assignee" || name = "Reporter"

/-- `template.Execute` on the parsed nodes: literal text passes through
verbatim, a known field action substitutes its projected value, and an
unknown field aborts with an error (Go: "cannot evaluate field X in type
prompt.TemplateData"). -/
def executeTemplate (nodes : List TmplNode) (d : TemplateData) : Except String String :=
  match nodes with
  | [] => Except.ok ""
  | TmplNode.text s :: rest =>
    match executeTemplate rest d with
    | Except.error e => Except.error e
    | Except.ok out => Except.ok (s ++ out)
  | TmplNode.field name :: rest =>
    match lookupTemplateField d name with
    | none =>
      Except.error ("cannot evaluate field " ++ name ++ " in type prompt.TemplateData")
    | some v =>
      match executeTemplate rest d with
      | Except.error e => Except.error e
      | Except.ok out => Except.ok (v ++ out)

/-- The error of the flat renderer, tagged with the wrap site in
`LoadAndRenderTemplate`: "failed to parse template" vs "failed to execute
template".  (The file-read failure happens before the core logic and is
out of scope: the function here receives the template text.) -/
inductive FlatRenderError where
  | parseErr (msg : String) : FlatRenderError
  | execErr (msg : String) : FlatRenderError
deriving DecidableEq

/-- Go `prompt.LoadAndRenderTemplate` (template.go lines 28-50), after the
file read: parse the template, execute it with the projected ticket data;
on either failure return the empty string and the wrapped error. -/
def LoadAndRenderTemplate (templateContent : String) (t : Ticket) :
    String × Option FlatRenderError :=
  match parseTemplate templateContent with
  | Except.error e => ("", some (FlatRenderError.parseErr e))
  | Except.ok nodes =>
    match executeTemplate nodes (createTemplateData t) with
    | Except.error e => ("", some (FlatRenderError.execErr e))
    | Except.ok out => (out, none)

/-! ### The Structured (POML) document and its deterministic flattening -/

/-- Go `prompt.POMLMetadata` (poml.go).  The Go field `Type` is spelled
`Type_` here because `Type` is reserved in Lean. -/
structure POMLMetadata where
  Status : String
  Type_ : String
  Priority : String
  Assignee : String
  Reporter : String
  Components : String
  Labels : String
deriving DecidableEq

/-- Go `prompt.POMLSection`. -/
structure POMLSection where
  Name : String
  Title : String
  Description : String
  Metadata : POMLMetadata
deriving DecidableEq

/-- Go `prompt.POMLContext`. -/
structure POMLContext where
  Sections : List POMLSection
deriving DecidableEq

/-- Go `prompt.POMLRequirement` (chardata of one requirement element). -/
structure POMLRequirement where
  Text : String
deriving DecidableEq

/-- Go `prompt.POMLOutputSection`. -/
structure POMLOutputSection where
  Name : String
  Title : String
  Content : String
deriving DecidableEq

/-- Go `prompt.POMLOutputFormat`. -/
structure POMLOutputFormat where
  Sections : List POMLOutputSection
deriving DecidableEq

/-- Go `prompt.POMLStyle`. -/
structure POMLStyle where
  Formatting : String
deriving DecidableEq

/-- Go `prompt.POMLDocument`.  The `XMLName xml.Name` tag field carries no
data (it only names the required root element) and is not represented. -/
structure POMLDocument where
  Role : String
  Task : String
  Context : POMLContext
  Instructions : List POMLRequirement
  OutputFormat : POMLOutputFormat
  Style : POMLStyle
deriving DecidableEq

/-- Go `strings.TrimSpace`: drop leading and trailing whitespace. -/
def goTrimSpace (s : String) : String :=
  String.mk (((s.data.dropWhile Char.isWhitespace).reverse.dropWhile Char.isWhitespace).reverse)

/-- `convertPOMLToPrompt`, the Role block (poml.go lines 107-110). -/
def rolePart (doc : POMLDocument) : String :=
  if doc.Role ≠ "" then "Role: " ++ goTrimSpace doc.Role ++ "\n\n" else ""

/-- `convertPOMLToPrompt`, the Task block (poml.go lines 112-115). -/
def taskPart (doc : POMLDocument) : String :=
  if doc.Task ≠ "" then "Task: " ++ goTrimSpace doc.Task ++ "\n\n" else ""

/-- The metadata lines of one context section, in the fixed order
status, type, priority, assignee, reporter, components, labels; an empty
field is wholly omitted (poml.go lines 128-149). -/
def metadataText (m : POMLMetadata) : String :=
  (if m.Status ≠ "" then "Status: " ++ m.Status ++ "\n" else "")
    ++ (if m.Type_ ≠ "" then "Type: " ++ m.Type_ ++ "\n" else "")
    ++ (if m.Priority ≠ "" then "Priority: " ++ m.Priority ++ "\n" else "")
    ++ (if m.Assignee ≠ "" then "Assignee: " ++ m.Assignee ++ "\n" else "")
    ++ (if m.Reporter ≠ "" then "Reporter: " ++ m.Reporter ++ "\n" else "")
    ++ (if m.Components ≠ "" then "Components: " ++ m.Components ++ "\n" else "")
    ++ (if m.Labels ≠ "" then "Labels: " ++ m.Labels ++ "\n" else "")

/-- The text of one context section: title line, description line, then
the metadata lines (poml.go lines 120-149). -/
def sectionText (s : POMLSection) : String :=
  (if s.Title ≠ "" then "\nTicket: " ++ s.Title ++ "\n" else "")
    ++ (if s.Description ≠ "" then "Description: " ++ s.Description ++ "\n" else "")
    ++ metadataText s.Metadata

/-- `convertPOMLToPrompt`, the Context block (poml.go lines 117-152): the
heading, one block per section in document order, and a closing newline,
emitted whenever the section list is non-empty. -/
def contextPart (doc : POMLDocument) : String :=
  if doc.Context.Sections.isEmpty then ""
  else "Context:\n" ++ String.join (doc.Context.Sections.map sectionText) ++ "\n"

/-- `convertPOMLToPrompt`, the Instructions block (poml.go lines 154-163):
a bullet per requirement that is non-empty after trimming, emitted
whenever the requirement list is non-empty. -/
def instructionsPart (doc : POMLDocument) : String :=
  if doc.Instructions.isEmpty then ""
  else
    "Instructions:\n"
      ++ String.join (doc.Instructions.map (fun req =>
           if goTrimSpace req.Text ≠ "" then "- " ++ goTrimSpace req.Text ++ "\n" else ""))
      ++ "\n"

/-- `convertPOMLToPrompt`, the Output Format block (poml.go lines 165-176). -/
def outputPart (doc : POMLDocument) : String :=
  if doc.OutputFormat.Sections.isEmpty then ""
  else
    "Please provide your response in the following format:\n\n"
      ++ String.join (doc.OutputFormat.Sections.map (fun s =>
           (if s.Title ≠ "" then "## " ++ s.Title ++ "\n" else "")
             ++ (if s.Content ≠ "" then goTrimSpace s.Content ++ "\n\n" else "")))

/-- `convertPOMLToPrompt`, the Style block (poml.go lines 178-182). -/
def stylePart (doc : POMLDocument) : String :=
  if doc.Style.Formatting ≠ "" then
    "Formatting Guidelines:\n" ++ goTrimSpace doc.Style.Formatting ++ "\n"
  else ""

/-- Go `prompt.convertPOMLToPrompt` (poml.go lines 104-185): the strings
builder appends exactly these six parts in this order. -/
def convertPOMLToPrompt (doc : POMLDocument) : String :=
  rolePart doc ++ taskPart doc ++ contextPart doc ++ instructionsPart doc
    ++ outputPart doc ++ stylePart doc

/-! ### Go encoding/xml, restricted to the POML schema

`LoadAndRenderPOMLTemplate` hands the phase-1 output to `xml.Unmarshal`
targeting `POMLDocument`.  We model the parser on plain elements,
attributes and character data (no comments, processing instructions or
entity escapes, which no POML template uses): a structurally malformed
document — an unclosed element, a mismatched closing tag, a stray closing
tag — is a syntax error; unknown elements are ignored and missing ones
leave their field at its zero value, exactly the permissive unmarshalling
the Go struct tags request. -/

/-- A lexical token of the markup. -/
inductive XmlToken where
  | openTag (name : String) (attrs : List (String × String)) (selfClose : Bool) : XmlToken
  | closeTag (name : String) : XmlToken
  | textTok (s : String) : XmlToken
deriving DecidableEq

/-- A parsed markup node. -/
inductive XmlNode where
  | text (s : String) : XmlNode
  | elem (name : String) (attrs : List (String × String)) (children : List XmlNode) : XmlNode

/-- Characters allowed in an element or attribute name. -/
def isNameChar (c : Char) : Bool :=
  c.isAlpha || c.isDigit || c = '-' || c = '_' || c = ':'

/-- Attribute list scanner: `key="value"` pairs up to the closing angle
bracket, reporting whether the tag is self-closing.  Fueled; each step
consumes at least one character. -/
def parseAttrs : Nat → List Char → Except String (List (String × String) × Bool × List Char)
  | 0, _ => Except.error "internal: out of fuel"
  | fuel + 1, cs =>
    let cs := cs.dropWhile Char.isWhitespace
    match cs with
    | [] => Except.error "XML syntax error: unexpected EOF"
    | '>' :: rest => Except.ok ([], false, rest)
    | '/' :: '>' :: rest => Except.ok ([], true, rest)
    | _ =>
      let key := cs.takeWhile isNameChar
      let cs2 := cs.dropWhile isNameChar
      if key = [] then Except.error "XML syntax error: malformed tag" else
      match cs2 with
      | '=' :: '"' :: cs3 =>
        let v := cs3.takeWhile (fun c => c ≠ '"')
        let cs4 := cs3.dropWhile (fun c => c ≠ '"')
        match cs4 with
        | '"' :: cs5 =>
          match parseAttrs fuel cs5 with
          | Except.error e => Except.error e
          | Except.ok (attrs, sc, rest) =>
            Except.ok ((String.mk key, String.mk v) :: attrs, sc, rest)
        | _ => Except.error "XML syntax error: unexpected EOF"
      | _ => Except.error "XML syntax error: malformed attribute"

/-- Tokenizer.  Fueled; each emitted token consumes at least one character. -/
def xmlTokenize : Nat → List Char → Except String (List XmlToken)
  | 0, _ => Except.error "internal: out of fuel"
  | _ + 1, [] => Except.ok []
  | fuel + 1, '<' :: '/' :: rest =>
    let name := rest.takeWhile isNameChar
    let rest2 := (rest.dropWhile isNameChar).dropWhile Char.isWhitespace
    if name = [] then Except.error "XML syntax error: malformed closing tag" else
    match rest2 with
    | '>' :: rest3 =>
      match xmlTokenize fuel rest3 with
      | Except.error e => Except.error e
      | Except.ok toks => Except.ok (XmlToken.closeTag (String.mk name) :: toks)
    | _ => Except.error "XML syntax error: malformed closing tag"
  | fuel + 1, '<' :: rest =>
    let name := rest.takeWhile isNameChar
    let rest2 := rest.dropWhile isNameChar
    if name = [] then Except.error "XML syntax error: malformed tag" else
    match parseAttrs fuel rest2 with
    | Except.error e => Except.error e
    | Except.ok (attrs, sc, rest3) =>
      match xmlTokenize fuel rest3 with
      | Except.error e => Except.error e
      | Except.ok toks => Except.ok (XmlToken.openTag (String.mk name) attrs sc :: toks)
  | fuel + 1, c :: rest =>
    let txt := c :: rest.takeWhile (fun d => d ≠ '<')
    let rest2 := rest.dropWhile (fun d => d ≠ '<')
    match xmlTokenize fuel rest2 with
    | Except.error e => Except.error e
    | Except.ok toks => Except.ok (XmlToken.textTok (String.mk txt) :: toks)

/-- Tree builder: parses a sibling sequence, stopping at a closing tag;
an opened element must be closed by a matching tag before the input ends.
Fueled; the caller supplies `length + 1`. -/
def buildNodes : Nat → List XmlToken → Except String (List XmlNode × List XmlToken)
  | 0, _ => Except.error "internal: out of fuel"
  | _ + 1, [] => Except.ok ([], [])
  | _ + 1, XmlToken.closeTag n :: rest => Except.ok ([], XmlToken.closeTag n :: rest)
  | fuel + 1, XmlToken.textTok s :: rest =>
    match buildNodes fuel rest with
    | Except.error e => Except.error e
    | Except.ok (ns, rem) => Except.ok (XmlNode.text s :: ns, rem)
  | fuel + 1, XmlToken.openTag n attrs true :: rest =>
    match buildNodes fuel rest with
    | Except.error e => Except.error e
    | Except.ok (ns, rem) => Except.ok (XmlNode.elem n attrs [] :: ns, rem)
  | fuel + 1, XmlToken.openTag n attrs false :: rest =>
    match buildNodes fuel rest with
    | Except.error e => Except.error e
    | Except.ok (children, rem) =>
      match rem with
      | XmlToken.closeTag m :: rem2 =>
        if m = n then
          match buildNodes fuel rem2 with
          | Except.error e => Except.error e
          | Except.ok (ns, rem3) => Except.ok (XmlNode.elem n attrs children :: ns, rem3)
        else Except.error ("XML syntax error: element " ++ n ++ " closed by " ++ m)
      | _ => Except.error "XML syntax error: unexpected EOF"

mutual

/-- All character data inside a node, in document order: what Go's
unmarshaller accumulates into a string field mapped to this element. -/
def xmlNodeText : XmlNode → String
  | XmlNode.text s => s
  | XmlNode.elem _ _ children => xmlNodesText children

/-- Character data of a node list, concatenated in order. -/
def xmlNodesText : List XmlNode → String
  | [] => ""
  | n :: rest => xmlNodeText n ++ xmlNodesText rest

end

/-- The children of an element node (a text node has none). -/
def nodeChildren : XmlNode → List XmlNode
  | XmlNode.text _ => []
  | XmlNode.elem _ _ cs => cs

/-- Whether a node is an element with the given name. -/
def isElemNamed (name : String) (n : XmlNode) : Bool :=
  match n with
  | XmlNode.elem m _ _ => m = name
  | XmlNode.text _ => false

/-- Whether a node is an element. -/
def isElemNode (n : XmlNode) : Bool :=
  match n with
  | XmlNode.elem _ _ _ => true
  | XmlNode.text _ => false

/-- The child elements with the given name, in document order. -/
def childElems (cs : List XmlNode) (name : String) : List XmlNode :=
  cs.filter (isElemNamed name)

/-- A string-typed field mapped to a child element: Go sets the field once
per occurrence, so the last occurrence wins; no occurrence leaves the zero
value. -/
def childString (cs : List XmlNode) (name : String) : String :=
  match (childElems cs name).getLast? with
  | some n => xmlNodeText n
  | none => ""

/-- An attribute-typed field: the attribute's value, or empty. -/
def attrString (n : XmlNode) (key : String) : String :=
  match n with
  | XmlNode.elem _ attrs _ =>
    match attrs.lookup key with
    | some v => v
    | none => ""
  | XmlNode.text _ => ""

/-- The name of an element node. -/
def rootName (n : XmlNode) : String :=
  match n with
  | XmlNode.elem m _ _ => m
  | XmlNode.text _ => ""

/-- One context section, unmarshalled from a `section` element:
`name` attribute, `title` and `description` child strings, and the
metadata strings gathered from the children of its `metadata` elements. -/
def sectionFromElem (n : XmlNode) : POMLSection :=
  let cs := nodeChildren n
  let mcs := (childElems cs "metadata").map nodeChildren |> List.flatten
  { Name := attrString n "name",
    Title := childString cs "title",
    Description := childString cs "description",
    Metadata :=
      { Status := childString mcs "status",
        Type_ := childString mcs "type",
        Priority := childString mcs "priority",
        Assignee := childString mcs "assignee",
        Reporter := childString mcs "reporter",
        Components := childString mcs "components",
        Labels := childString mcs "labels" } }

/-- One output section, unmarshalled from an `output-format>section`
element. -/
def outputSectionFromElem (n : XmlNode) : POMLOutputSection :=
  let cs := nodeChildren n
  { Name := attrString n "name",
    Title := childString cs "title",
    Content := childString cs "content" }

/-- Unmarshal the root `poml` element into a `POMLDocument`, following the
struct tags of poml.go: `role`, `task`, `context>section`,
`instructions>requirement`, `output-format>section`, `style>formatting`.
Unknown elements are ignored; missing ones leave zero values. -/
def docFromRoot (root : XmlNode) : POMLDocument :=
  let cs := nodeChildren root
  { Role := childString cs "role",
    Task := childString cs "task",
    Context :=
      ⟨(childElems ((childElems cs "context").map nodeChildren |> List.flatten) "section").map
        sectionFromElem⟩,
    Instructions :=
      (childElems ((childElems cs "instructions").map nodeChildren |> List.flatten)
          "requirement").map
        (fun n => ⟨xmlNodeText n⟩),
    OutputFormat :=
      ⟨(childElems ((childElems cs "output-format").map nodeChildren |> List.flatten)
          "section").map
        outputSectionFromElem⟩,
    Style := ⟨childString ((childElems cs "style").map nodeChildren |> List.flatten) "formatting"⟩ }

/-- `xml.Unmarshal` targeting `POMLDocument`: tokenize, build the element
tree (any structural malformation is a syntax error), require a root
element named `poml`, and unmarshal it permissively. -/
def xmlUnmarshalPOML (s : String) : Except String POMLDocument :=
  match xmlTokenize (s.data.length + 1) s.data with
  | Except.error e => Except.error e
  | Except.ok toks =>
    match buildNodes (toks.length + 1) toks with
    | Except.error e => Except.error e
    | Except.ok (nodes, rem) =>
      match rem with
      | _ :: _ => Except.error "XML syntax error: unexpected end element"
      | [] =>
        match nodes.find? isElemNode with
        | none => Except.error "EOF"
        | some root =>
          if rootName root = "poml" then Except.ok (docFromRoot root)
          else Except.error ("expected element type poml but have " ++ rootName root)

/-- The error of the structured renderer, tagged with the wrap site in
`LoadAndRenderPOMLTemplate`: phase 1 is the substitution step ("failed to
parse POML template" / "failed to execute POML template"), phase 2 the
markup parse ("failed to parse POML XML"). -/
inductive POMLRenderError where
  | templateParse (msg : String) : POMLRenderError
  | templateExec (msg : String) : POMLRenderError
  | xmlParse (msg : String) : POMLRenderError
deriving DecidableEq

/-- Whether an error came from phase 1 (substitution) rather than phase 2
(structural markup parse). -/
def isPhaseOneError : POMLRenderError → Bool
  | POMLRenderError.templateParse _ => true
  | POMLRenderError.templateExec _ => true
  | POMLRenderError.xmlParse _ => false

/-- Go `prompt.LoadAndRenderPOMLTemplate` (poml.go lines 71-101), after
the file read: phase 1 substitutes with the same engine as the flat
renderer; phase 2 unmarshals the substituted markup; success flattens the
parsed document.  Every failure path returns the empty string and the
wrapped error, mirroring Go's pairs `("", err)`. -/
def LoadAndRenderPOMLTemplate (templateContent : String) (t : Ticket) :
    String × Option POMLRenderError :=
  match parseTemplate templateContent with
  | Except.error e => ("", some (POMLRenderError.templateParse e))
  | Except.ok nodes =>
    match executeTemplate nodes (createTemplateData t) with
    | Except.error e => ("", some (POMLRenderError.templateExec e))
    | Except.ok rendered =>
      match xmlUnmarshalPOML rendered with
      | Except.error e => ("", some (POMLRenderError.xmlParse e))
      | Except.ok doc => (convertPOMLToPrompt doc, none)

/-- Modelled from the spec (§6 Template Source): the template's declared
kind, an explicit tag carried alongside the source and derived upstream
from the path's extension.  The Go entry point receives only the path and
its file content; no kind is represented in the code. -/
inductive TemplateKind where
  | flat : TemplateKind
  | structured : TemplateKind
  | unknown : TemplateKind
deriving DecidableEq

/-- The rendering step of `runJiraGenerator` (main.go lines 134-145): the
resolved template file's content is always handed to the flat renderer
`prompt.LoadAndRenderTemplate`.  The declared kind of the template is
passed here explicitly to express that the entry point ignores it: no code
in main.go inspects the path's extension or calls
`LoadAndRenderPOMLTemplate`. -/
def runJiraGeneratorRender (_kind : TemplateKind) (templateText : String) (t : Ticket) :
    String × Option FlatRenderError :=
  LoadAndRenderTemplate templateText t

/-! ### Concrete inputs used by the scenario claims and witnesses -/

/-- The raw field map of the C1 scenario: summary and status only, no
issuetype key. -/
def c1Resp : JiraResponse :=
  { ID := "", Key := "",
    Fields := [("summary", Json.str "Fix login bug"),
               ("status", Json.obj [("id", Json.str "1"), ("name", Json.str "Open")])] }

/-- The ticket the C1 scenario expects: summary and status populated,
every other field at its zero value. -/
def c1Ticket : Ticket :=
  { ID := "", Key := "", Summary := "Fix login bug", Description := "",
    Status := { ID := "1", Name := "Open" },
    IssueType := { ID := "", Name := "" },
    Priority := { ID := "", Name := "" },
    Assignee := none,
    Reporter := { AccountID := "", DisplayName := "", EmailAddress := "" },
    Created := none, Updated := none, Labels := [], Components := [],
    Project := { ID := "", Key := "", Name := "" } }

/-- A raw field map whose created timestamp does not match the fixed
layout. -/
def c1BadTimeResp : JiraResponse :=
  { ID := "", Key := "", Fields := [("created", Json.str "yesterday")] }

/-- A ticket with every field at its zero value. -/
def emptyTicket : Ticket :=
  { ID := "", Key := "", Summary := "", Description := "",
    Status := { ID := "", Name := "" },
    IssueType := { ID := "", Name := "" },
    Priority := { ID := "", Name := "" },
    Assignee := none,
    Reporter := { AccountID := "", DisplayName := "", EmailAddress := "" },
    Created := none, Updated := none, Labels := [], Components := [],
    Project := { ID := "", Key := "", Name := "" } }

/-- The empty ticket with an assignee present. -/
def assignedTicket : Ticket :=
  { emptyTicket with
    Assignee := some { AccountID := "a1", DisplayName := "Ada", EmailAddress := "ada@example.com" } }

/-- All-empty section metadata. -/
def emptyPOMLMetadata : POMLMetadata :=
  { Status := "", Type_ := "", Priority := "", Assignee := "", Reporter := "",
    Components := "", Labels := "" }

/-- The Structured Document of the C3 scenario: empty role, task
"Plan the fix", one section titled LOGIN-1 with nothing else. -/
def c3Doc : POMLDocument :=
  { Role := "", Task := "Plan the fix",
    Context := ⟨[{ Name := "", Title := "LOGIN-1", Description := "", Metadata := emptyPOMLMetadata }]⟩,
    Instructions := [], OutputFormat := ⟨[]⟩, Style := ⟨""⟩ }

/-- A document whose only content is one context section all of whose
fields are empty. -/
def c4Doc : POMLDocument :=
  { Role := "", Task := "",
    Context := ⟨[{ Name := "", Title := "", Description := "", Metadata := emptyPOMLMetadata }]⟩,
    Instructions := [], OutputFormat := ⟨[]⟩, Style := ⟨""⟩ }

/-- A template whose substitution action is never closed (a phase-1
syntax error). -/
def unclosedActionTemplate : String := "\x7b\x7b.Summary"

/-- A flat template consisting solely of the Summary substitution marker. -/
def summaryMarkerTemplate : String := "\x7b\x7b.Summary\x7d\x7d"

/-- A template referencing a field outside the known context-field set. -/
def bogusFieldTemplate : String := "\x7b\x7b.Bogus\x7d\x7d"

/-- A structured template whose markup leaves the root element unclosed. -/
def unclosedPOMLTemplate : String := "<poml><task>x</task>"

/-- A well-formed structured template with a single task element. -/
def pomlTaskTemplate : String := "<poml><task>Plan</task></poml>"

/-! ### Helper lemmas -/

/-- Appending the empty string on the right is the identity. -/
theorem string_append_empty (s : String) : s ++ "" = s := by
  cases s with
  | mk d => exact congrArg String.mk (List.append_nil d)

/-- String append is associative. -/
theorem string_append_assoc (a b c : String) : a ++ b ++ c = a ++ (b ++ c) := by
  cases a with
  | mk la =>
    cases b with
    | mk lb =>
      cases c with
      | mk lc => exact congrArg String.mk (List.append_assoc la lb lc)

/-- A name outside the known set resolves to no `TemplateData` field. -/
theorem lookupTemplateField_unknown (d : TemplateData) (name : String)
    (h : isKnownTemplateField name = false) : lookupTemplateField d name = none := by
  simp only [isKnownTemplateField, Bool.or_eq_false_iff, decide_eq_false_iff_not] at h
  obtain ⟨⟨⟨⟨⟨⟨⟨⟨h1, h2⟩, h3⟩, h4⟩, h5⟩, h6⟩, h7⟩, h8⟩, h9⟩ := h
  simp [lookupTemplateField, h1, h2, h3, h4, h5, h6, h7, h8, h9]

/-- Executing a node list that references an unresolvable field fails. -/
theorem executeTemplate_err_of_unknown (nodes : List TmplNode) (d : TemplateData)
    (name : String) (hmem : TmplNode.field name ∈ nodes)
    (hnone : lookupTemplateField d name = none) :
    ∃ msg, executeTemplate nodes d = Except.error msg := by
  induction nodes with
  | nil => cases hmem
  | cons hd tl ih =>
    cases hd with
    | text s =>
      have hmem' : TmplNode.field name ∈ tl := by
        rcases List.mem_cons.mp hmem with h1 | h1
        · exact absurd h1 (by simp)
        · exact h1
      obtain ⟨msg, hm⟩ := ih hmem'
      exact ⟨msg, by simp [executeTemplate, hm]⟩
    | field f =>
      by_cases hf : f = name
      · subst hf
        exact ⟨"cannot evaluate field " ++ f ++ " in type prompt.TemplateData",
               by simp [executeTemplate, hnone]⟩
      · have hmem' : TmplNode.field name ∈ tl := by
          rcases List.mem_cons.mp hmem with h1 | h1
          · exact absurd (by injection h1 with h2; exact h2.symm) hf
          · exact h1
        obtain ⟨msg, hm⟩ := ih hmem'
        cases hl : lookupTemplateField d f with
        | none => exact ⟨"cannot evaluate field " ++ f ++ " in type prompt.TemplateData",
                         by simp [executeTemplate, hl]⟩
        | some v => exact ⟨msg, by simp [executeTemplate, hl, hm]⟩

/-! ### Claim theorems -/

/-- C1: normalization (`parseTicket`) returns a Ticket and never an error
for every raw field map; a known field whose key is absent or wrongly
shaped is left at its zero value (an absent `issuetype` yields the zero
IssueType, a timestamp not matching the single fixed format yields the
zero timestamp); and on the scenario map with summary and status only the
result is exactly the scenario ticket. -/
theorem parseTicket_total_and_lenient :
    (∀ resp : JiraResponse, ∃ t, parseTicket resp = Except.ok t) ∧
    (∀ (resp : JiraResponse) (t : Ticket), parseTicket resp = Except.ok t →
        resp.Fields.lookup "issuetype" = none → t.IssueType = { ID := "", Name := "" }) ∧
    (∀ (resp : JiraResponse) (t : Ticket) (s : String), parseTicket resp = Except.ok t →
        resp.Fields.lookup "created" = some (Json.str s) → timeParse s = none →
        t.Created = none) ∧
    parseTicket c1Resp = Except.ok c1Ticket := by
  refine ⟨fun resp => ⟨parseTicketCore resp, rfl⟩, ?_, ?_, by rfl⟩
  · intro resp t h hl
    have ht : parseTicketCore resp = t := by
      simpa [parseTicket] using h
    subst ht
    simp [parseTicketCore, hl]
  · intro resp t s h hl hp
    have ht : parseTicketCore resp = t := by
      simpa [parseTicket] using h
    subst ht
    simp [parseTicketCore, hl, hp]

/-- Witness for C1: the hypotheses hold at the scenario map (no issuetype
key) and at a map whose created value does not match the layout. -/
theorem parseTicket_total_and_lenient_witness :
    c1Ticket.IssueType = { ID := "", Name := "" } ∧
    (parseTicketCore c1BadTimeResp).Created = none :=
  ⟨parseTicket_total_and_lenient.2.1 c1Resp c1Ticket (by rfl) (by rfl),
   parseTicket_total_and_lenient.2.2.1 c1BadTimeResp (parseTicketCore c1BadTimeResp)
     "yesterday" rfl (by rfl) (by rfl)⟩

/-- C7: the projected Assignee is the display name when the assignee is
present and exactly "Unassigned" when it is absent; the projected Reporter
is always the reporter display name. -/
theorem createTemplateData_assignee_reporter (t : Ticket) :
    (t.Assignee = none → (createTemplateData t).Assignee = "Unassigned") ∧
    (∀ u, t.Assignee = some u → (createTemplateData t).Assignee = u.DisplayName) ∧
    (createTemplateData t).Reporter = t.Reporter.DisplayName := by
  refine ⟨fun h => ?_, fun u h => ?_, rfl⟩ <;> simp [createTemplateData, h]

/-- Witness for C7: an absent assignee projects to "Unassigned"; a present
one projects to its display name. -/
theorem createTemplateData_assignee_reporter_witness :
    (createTemplateData emptyTicket).Assignee = "Unassigned" ∧
    (createTemplateData assignedTicket).Assignee = "Ada" :=
  ⟨(createTemplateData_assignee_reporter emptyTicket).1 rfl,
   (createTemplateData_assignee_reporter assignedTicket).2.1
     { AccountID := "a1", DisplayName := "Ada", EmailAddress := "ada@example.com" } rfl⟩

/-- C9: rendering a flat template consisting solely of the Summary marker
yields exactly the ticket summary, with no error and no added text. -/
theorem flat_render_summary_marker (t : Ticket) :
    LoadAndRenderTemplate summaryMarkerTemplate t = (t.Summary, none) := by
  have hp : parseTemplate summaryMarkerTemplate = Except.ok [TmplNode.field "Summary"] := by rfl
  simp [LoadAndRenderTemplate, hp, executeTemplate, lookupTemplateField,
    createTemplateData, string_append_empty]

/-- C10: the projected Components value is the comma-and-space-joined list
over the components in source order, each entry being the name or
"name (Lead: lead display name)"; empty components and labels sequences
project to the empty string. -/
theorem createTemplateData_components_labels (t : Ticket) :
    (createTemplateData t).Components
        = String.intercalate ", " (t.Components.map componentEntry) ∧
    (t.Components = [] → (createTemplateData t).Components = "") ∧
    (t.Labels = [] → (createTemplateData t).Labels = "") := by
  refine ⟨?_, fun h => by simp [createTemplateData, h], fun h => by simp [createTemplateData, h]⟩
  cases hc : t.Components with
  | nil =>
    simp only [createTemplateData, hc, List.isEmpty_nil, List.map_nil, if_true]
    rfl
  | cons a l => simp [createTemplateData, hc]

/-- Witness for C10: the empty sequences of the zero ticket project to the
empty string. -/
theorem createTemplateData_components_labels_witness :
    (createTemplateData emptyTicket).Components = "" ∧
    (createTemplateData emptyTicket).Labels = "" :=
  ⟨(createTemplateData_components_labels emptyTicket).2.1 rfl,
   (createTemplateData_components_labels emptyTicket).2.2 rfl⟩

/-- C3 counterexample: on the scenario document the flattened text is not
the claimed string — the code appends one more newline after the context
sections. -/
theorem convertPOMLToPrompt_scenario_counterexample :
    convertPOMLToPrompt c3Doc ≠ "Task: Plan the fix\n\nContext:\n\nTicket: LOGIN-1\n" := by
  decide

/-- C3 (amended): flattening the scenario document (empty role, task
"Plan the fix", one context section titled LOGIN-1 and nothing else)
yields exactly "Task: Plan the fix\n\nContext:\n\nTicket: LOGIN-1\n\n" —
as claimed but with a final blank line, because the context block always
closes with one extra newline; the Role, Instructions, Output and Style
blocks are fully absent. -/
theorem convertPOMLToPrompt_scenario :
    convertPOMLToPrompt c3Doc = "Task: Plan the fix\n\nContext:\n\nTicket: LOGIN-1\n\n" := by
  decide

/-- C4 counterexample: a document whose only content is one context
section all of whose fields are empty flattens to "Context:\n\n" — a
heading line followed by nothing — not to no output at all. -/
theorem convertPOMLToPrompt_bare_heading_counterexample :
    convertPOMLToPrompt c4Doc = "Context:\n\n" ∧ convertPOMLToPrompt c4Doc ≠ "" := by
  exact ⟨by decide, by decide⟩

/-- C4 (amended): the Role, Task and Style blocks are emitted only when
their field is non-empty, but the Context and Instructions headings are
emitted whenever the corresponding sequence is non-empty, even if every
field of every entry is empty (a non-empty list of all-empty sections
yields a bare heading); empty sequences produce no output; the flattened
text is exactly the six blocks in order. -/
theorem convertPOMLToPrompt_block_emission (doc : POMLDocument) :
    (doc.Role = "" → rolePart doc = "") ∧
    (doc.Task = "" → taskPart doc = "") ∧
    (doc.Context.Sections = [] → contextPart doc = "") ∧
    (doc.Context.Sections ≠ [] → ∃ body, contextPart doc = "Context:\n" ++ body) ∧
    (doc.Instructions = [] → instructionsPart doc = "") ∧
    (doc.Instructions ≠ [] → ∃ body, instructionsPart doc = "Instructions:\n" ++ body) ∧
    (doc.OutputFormat.Sections = [] → outputPart doc = "") ∧
    (doc.Style.Formatting = "" → stylePart doc = "") ∧
    convertPOMLToPrompt doc
        = rolePart doc ++ taskPart doc ++ contextPart doc ++ instructionsPart doc
            ++ outputPart doc ++ stylePart doc := by
  refine ⟨fun h => by simp [rolePart, h], fun h => by simp [taskPart, h],
    fun h => by simp [contextPart, h], fun h => ?_,
    fun h => by simp [instructionsPart, h], fun h => ?_,
    fun h => by simp [outputPart, h], fun h => by simp [stylePart, h], rfl⟩
  · cases hc : doc.Context.Sections with
    | nil => exact absurd hc h
    | cons a l =>
      refine ⟨String.join ((a :: l).map sectionText) ++ "\n", ?_⟩
      simp only [contextPart, hc, List.isEmpty_cons, if_neg, Bool.false_eq_true,
        not_false_eq_true, ite_false]
      exact string_append_assoc _ _ _
  · cases hc : doc.Instructions with
    | nil => exact absurd hc h
    | cons a l =>
      refine ⟨String.join ((a :: l).map (fun req =>
        if goTrimSpace req.Text ≠ "" then "- " ++ goTrimSpace req.Text ++ "\n" else "")) ++ "\n", ?_⟩
      simp only [instructionsPart, hc, List.isEmpty_cons, Bool.false_eq_true,
        not_false_eq_true, ite_false]
      exact string_append_assoc _ _ _

/-- Witness for C4: at the scenario document the role is empty and hence
absent, while the non-empty section list emits the Context heading. -/
theorem convertPOMLToPrompt_block_emission_witness :
    rolePart c3Doc = "" ∧ (∃ body, contextPart c3Doc = "Context:\n" ++ body) ∧
    instructionsPart c3Doc = "" :=
  ⟨(convertPOMLToPrompt_block_emission c3Doc).1 rfl,
   (convertPOMLToPrompt_block_emission c3Doc).2.2.2.1 (by decide),
   (convertPOMLToPrompt_block_emission c3Doc).2.2.2.2.1 rfl⟩

/-- C8: flattening is deterministic — the embedding of
`convertPOMLToPrompt` is a pure function of the parsed document, whose
section, instruction and output-format collections are ordered lists (Go
slices, iterated in order; no map iteration, timestamps or randomness
occur in poml.go lines 104-185) — so flattening the same document twice
yields byte-identical text. -/
theorem convertPOMLToPrompt_deterministic (doc : POMLDocument) :
    convertPOMLToPrompt doc = convertPOMLToPrompt doc := rfl

/-- C5: in the structured two-phase pipeline a phase-1 substitution error
(malformed action syntax or unknown field) makes rendering return that
phase-1 error, the result never depending on the markup parser; a phase-2
structural parse error yields the phase-2 error; errors of the two phases
are distinguishable (by `isPhaseOneError`); and every error case returns
the empty string as the prompt text. -/
theorem poml_two_phase_errors (text : String) (t : Ticket) :
    (∀ e, parseTemplate text = Except.error e →
        LoadAndRenderPOMLTemplate text t = ("", some (POMLRenderError.templateParse e))) ∧
    (∀ nodes e, parseTemplate text = Except.ok nodes →
        executeTemplate nodes (createTemplateData t) = Except.error e →
        LoadAndRenderPOMLTemplate text t = ("", some (POMLRenderError.templateExec e))) ∧
    (∀ nodes rendered e, parseTemplate text = Except.ok nodes →
        executeTemplate nodes (createTemplateData t) = Except.ok rendered →
        xmlUnmarshalPOML rendered = Except.error e →
        LoadAndRenderPOMLTemplate text t = ("", some (POMLRenderError.xmlParse e))) ∧
    (∀ s e, LoadAndRenderPOMLTemplate text t = (s, some e) → s = "") ∧
    (∀ e1 e2 : POMLRenderError, isPhaseOneError e1 = true → isPhaseOneError e2 = false →
        e1 ≠ e2) ∧
    (∀ m, isPhaseOneError (POMLRenderError.templateParse m) = true ∧
        isPhaseOneError (POMLRenderError.templateExec m) = true ∧
        isPhaseOneError (POMLRenderError.xmlParse m) = false) := by
  refine ⟨?_, ?_, ?_, ?_, ?_, fun m => ⟨rfl, rfl, rfl⟩⟩
  · intro e hp
    simp [LoadAndRenderPOMLTemplate, hp]
  · intro nodes e hp he
    simp [LoadAndRenderPOMLTemplate, hp, he]
  · intro nodes rendered e hp he hx
    simp [LoadAndRenderPOMLTemplate, hp, he, hx]
  · intro s e h
    cases hp : parseTemplate text with
    | error e1 =>
      have hv : LoadAndRenderPOMLTemplate text t
          = ("", some (POMLRenderError.templateParse e1)) := by
        simp [LoadAndRenderPOMLTemplate, hp]
      rw [hv] at h
      exact (congrArg Prod.fst h).symm
    | ok nodes =>
      cases he : executeTemplate nodes (createTemplateData t) with
      | error e2 =>
        have hv : LoadAndRenderPOMLTemplate text t
            = ("", some (POMLRenderError.templateExec e2)) := by
          simp [LoadAndRenderPOMLTemplate, hp, he]
        rw [hv] at h
        exact (congrArg Prod.fst h).symm
      | ok rendered =>
        cases hx : xmlUnmarshalPOML rendered with
        | error e3 =>
          have hv : LoadAndRenderPOMLTemplate text t
              = ("", some (POMLRenderError.xmlParse e3)) := by
            simp [LoadAndRenderPOMLTemplate, hp, he, hx]
          rw [hv] at h
          exact (congrArg Prod.fst h).symm
        | ok doc =>
          have hv : LoadAndRenderPOMLTemplate text t = (convertPOMLToPrompt doc, none) := by
            simp [LoadAndRenderPOMLTemplate, hp, he, hx]
          rw [hv] at h
          exact absurd (congrArg Prod.snd h) (by simp)
  · intro e1 e2 h1 h2 heq
    subst heq
    rw [h1] at h2
    exact Bool.noConfusion h2

/-- Witness for C5: a phase-1 parse error, a phase-1 execution error, and
a phase-2 structural error (an unclosed element), each at a concrete
template, all return the empty prompt text with the tagged error. -/
theorem poml_two_phase_errors_witness :
    LoadAndRenderPOMLTemplate unclosedActionTemplate emptyTicket
        = ("", some (POMLRenderError.templateParse "unclosed action")) ∧
    LoadAndRenderPOMLTemplate bogusFieldTemplate emptyTicket
        = ("", some (POMLRenderError.templateExec
            "cannot evaluate field Bogus in type prompt.TemplateData")) ∧
    LoadAndRenderPOMLTemplate unclosedPOMLTemplate emptyTicket
        = ("", some (POMLRenderError.xmlParse "XML syntax error: unexpected EOF")) :=
  ⟨(poml_two_phase_errors unclosedActionTemplate emptyTicket).1 "unclosed action" (by rfl),
   (poml_two_phase_errors bogusFieldTemplate emptyTicket).2.1 [TmplNode.field "Bogus"] _
     (by rfl) (by rfl),
   (poml_two_phase_errors unclosedPOMLTemplate emptyTicket).2.2.1
     [TmplNode.text "<poml><task>x</task>"] "<poml><task>x</task>" _
     (by rfl) (by rfl) (by rfl)⟩

/-- C6: a flat template that references a context field outside the known
set renders to an error (the execution error of the unknown field), never
to silently substituted text. -/
theorem flat_render_unknown_field_errors (text : String) (t : Ticket)
    (nodes : List TmplNode) (name : String)
    (hp : parseTemplate text = Except.ok nodes)
    (hmem : TmplNode.field name ∈ nodes)
    (hunk : isKnownTemplateField name = false) :
    ∃ msg, LoadAndRenderTemplate text t = ("", some (FlatRenderError.execErr msg)) := by
  obtain ⟨msg, hm⟩ := executeTemplate_err_of_unknown nodes (createTemplateData t) name hmem
    (lookupTemplateField_unknown (createTemplateData t) name hunk)
  exact ⟨msg, by simp [LoadAndRenderTemplate, hp, hm]⟩

/-- Witness for C6: the template referencing the unknown field Bogus
renders to an execution error. -/
theorem flat_render_unknown_field_errors_witness :
    ∃ msg, LoadAndRenderTemplate bogusFieldTemplate emptyTicket
        = ("", some (FlatRenderError.execErr msg)) :=
  flat_render_unknown_field_errors bogusFieldTemplate emptyTicket [TmplNode.field "Bogus"]
    "Bogus" (by rfl) (List.mem_singleton.mpr rfl) (by rfl)

/-- C2 counterexample: for a template whose declared kind is Structured,
the render entry point emits the flat rendering (the markup text passed
through verbatim), not the structured dialect rendering of the same
source, so the entry point does not select the Structured dialect. -/
theorem render_entry_point_counterexample :
    runJiraGeneratorRender TemplateKind.structured pomlTaskTemplate emptyTicket
        = ("<poml><task>Plan</task></poml>", none) ∧
    LoadAndRenderPOMLTemplate pomlTaskTemplate emptyTicket = ("Task: Plan\n\n", none) ∧
    ("<poml><task>Plan</task></poml>" : String) ≠ "Task: Plan\n\n" := by
  exact ⟨by rfl, by rfl, by decide⟩

/-- C2 (amended): the render entry point of main.go always renders with
the Flat dialect, whatever the template's declared kind — the declared
kind never influences the output, and the Structured renderer
`LoadAndRenderPOMLTemplate` is never invoked by the entry point. -/
theorem render_entry_point_ignores_kind (kind : TemplateKind) (templateText : String)
    (t : Ticket) :
    runJiraGeneratorRender kind templateText t = LoadAndRenderTemplate templateText t ∧
    (∀ kind2, runJiraGeneratorRender kind templateText t
        = runJiraGeneratorRender kind2 templateText t) :=
  ⟨rfl, fun _ => rfl⟩

end JIG
